import Mathlib

/-!
Verification of the FitGenie behavior-scoring core
(`src/FitGenie/backend/rules.py` and `src/FitGenie/backend/system_function.py`)
against its natural-language specification.

The document store is an external collaborator: each embedded function takes
the documents that its store query would return (already filtered/sorted by
the query) as an explicit list parameter, and persistence is modelled by an
explicit list of stored plan documents threaded through the call.
Python floats are modelled by exact rationals; Python `round(x, 2)` is
modelled by round-half-to-even on rationals; `int(x)` on a float is
truncation toward zero.
-/

namespace FitGenie

/-- A raw stored metric value: either numerically coercible (to the rational
`q`) or a value on which Python `float(...)` / `int(...)` raises
(`ValueError` / `TypeError`). -/
inductive RawValue : Type
  | num (q : ℚ)
  | bad
deriving DecidableEq, Repr

/-- A `sensordata` document as the averaging code sees it: the `value` field
may be absent (`none`, a `KeyError` on subscript access). -/
structure SensorDoc : Type where
  value : Option RawValue
deriving DecidableEq, Repr

/-- Python `float(v)` on a fetched field: `none` means the lookup or the
coercion raised. -/
def pyFloat : Option RawValue → Option ℚ
  | some (RawValue.num q) => some q
  | _ => none

/-- Python `int(v)` for a present raw value: truncation toward zero on a
number, an exception (`Except.error`) otherwise. -/
def pyIntOfRaw : RawValue → Except String ℤ
  | RawValue.num q => Except.ok (if 0 ≤ q then ⌊q⌋ else -⌊-q⌋)
  | RawValue.bad => Except.error "ValueError"

/-- `statistics.mean` on an exact-rational reading of the values (the source
only ever calls it on a non-empty list). -/
def listMean (l : List ℚ) : ℚ := l.sum / l.length

/-- Python banker's rounding of a rational to the nearest integer
(`round` rounds half to even). -/
def pyRoundInt (q : ℚ) : ℤ :=
  if q - ⌊q⌋ < 1/2 then ⌊q⌋
  else if 1/2 < q - ⌊q⌋ then ⌊q⌋ + 1
  else if 2 ∣ ⌊q⌋ then ⌊q⌋ else ⌊q⌋ + 1

/-- Python `round(q, 2)`. -/
def pyRound2 (q : ℚ) : ℚ := (pyRoundInt (100 * q) : ℚ) / 100

/-! ## rules.py -/

def DEFAULT_HR_BASELINE : ℚ := 75
def DEFAULT_SLEEP_SCORE_BASELINE : ℚ := 70

/-- `_clamp(x, lo, hi) = max(lo, min(hi, x))`; the source always calls it
with the default bounds `lo=0.1, hi=1.0`. -/
def _clamp (x lo hi : ℚ) : ℚ := max lo (min hi x)

/-- `BehaviorModel._values`: fetch numeric metric values, ignoring documents
whose `value` is missing or fails `float` coercion.  `docs` is the query
result (already filtered to the user/metric/window and sorted newest
first). -/
def _values (docs : List SensorDoc) : List ℚ :=
  docs.filterMap (fun d => pyFloat d.value)

/-- A plan document as `adherence_score` projects it: only the `status`
field matters, and `p.get("status")` may be absent. -/
structure PlanStatusDoc : Type where
  status : Option String
deriving DecidableEq, Repr

/-- `BehaviorModel.adherence_score`: `plans` is the result of the 7-day
window query.  Returns the neutral fallback 0.5 when no plans exist,
otherwise the completed fraction (at full precision). -/
def adherence_score (plans : List PlanStatusDoc) : ℚ :=
  if plans.isEmpty then 0.5
  else (plans.countP (fun p => p.status == some "Completed") : ℚ) / plans.length

/-- `BehaviorModel.readiness_score`: the four document lists are the results
of the four store queries (14-day HR baseline, 14-day SleepScore baseline,
24-hour recent HR, 7-day recent SleepScore — the source slices the last one
to its 3 most recent coerced values). -/
def readiness_score (hrBaseDocs sleepBaseDocs hrRecentDocs sleepRecentDocs :
    List SensorDoc) : ℚ :=
  let hr_base_vals := _values hrBaseDocs
  let sleep_base_vals := _values sleepBaseDocs
  let hr_baseline := if hr_base_vals.isEmpty then DEFAULT_HR_BASELINE
    else listMean hr_base_vals
  let sleep_baseline := if sleep_base_vals.isEmpty then DEFAULT_SLEEP_SCORE_BASELINE
    else listMean sleep_base_vals
  let hr_recent := _values hrRecentDocs
  let sleep_recent := (_values sleepRecentDocs).take 3
  let hr_avg := if hr_recent.isEmpty then hr_baseline else listMean hr_recent
  let sleep_avg := if sleep_recent.isEmpty then sleep_baseline else listMean sleep_recent
  let hr_delta := hr_baseline - hr_avg
  let hr_score := _clamp (0.5 + hr_delta / 20) 0.1 1
  let sleep_score := _clamp (sleep_avg / 100) 0.1 1
  pyRound2 (0.4 * hr_score + 0.6 * sleep_score)

/-- The candidate target computed by `next_best_intensity` before
hysteresis. -/
def candidate_target (readiness adherence : ℚ) : String :=
  if readiness > 0.8 ∧ adherence ≥ 0.6 then "High"
  else if readiness ≥ 0.6 then "Moderate"
  else "Low"

/-- A plan item as the hysteresis scan projects it: `item.get("type")` and
`item.get("intensity")` may each be absent. -/
structure HystItem : Type where
  type : Option String
  intensity : Option String
deriving DecidableEq, Repr

/-- The most recent plan as `next_best_intensity` projects it:
`last_plan.get("items")` may be absent. -/
structure LastPlan : Type where
  items : Option (List HystItem)
deriving DecidableEq, Repr

/-- The `for item in last_plan["items"]` scan: the intensity of the first
`Workout`-typed item (`none` when no such item exists, or when the first
one has no `intensity` field). -/
def firstWorkoutIntensity : List HystItem → Option String
  | [] => none
  | item :: rest =>
    if item.type == some "Workout" then item.intensity
    else firstWorkoutIntensity rest

/-- `last_intensity` as computed by `next_best_intensity`: `None` unless the
most recent plan exists and has a non-empty `items` list containing a
`Workout` item. -/
def lastIntensity (last_plan : Option LastPlan) : Option String :=
  match last_plan with
  | none => none
  | some lp =>
    match lp.items with
    | none => none
    | some items => if items.isEmpty then none else firstWorkoutIntensity items

/-- `order.get(s, 1)` for `order = {"Low": 0, "Moderate": 1, "High": 2}`. -/
def orderGet (s : String) : ℤ :=
  if s = "Low" then 0 else if s = "Moderate" then 1
  else if s = "High" then 2 else 1

/-- The hysteresis adjustment applied to the candidate `target` given the
truthiness-checked `last_intensity` (Python `if last_intensity:` rejects
`None` and the empty string). -/
def applyHysteresis (target : String) (last_intensity : Option String) : String :=
  match last_intensity with
  | none => target
  | some s =>
    if s = "" then target
    else if (orderGet target - orderGet s).natAbs > 1 then "Moderate"
    else target

/-- `BehaviorModel.next_best_intensity`: `readiness` and `adherence` are the
values the two scoring methods return, `last_plan` is the result of the
`find_one` sorted by date descending. -/
def next_best_intensity (readiness adherence : ℚ)
    (last_plan : Option LastPlan) : String :=
  applyHysteresis (candidate_target readiness adherence) (lastIntensity last_plan)

/-! ## models.py and system_function.py -/

/-- A fully-built plan item, as `models.plan_item` constructs it. -/
structure PlanItem : Type where
  type : String
  intensity : String
  durationMin : ℤ
  notes : String
deriving DecidableEq, Repr

/-- `models.plan_item`. -/
def plan_item (t intensity : String) (duration_min : ℤ) (notes : String) :
    PlanItem :=
  { type := t, intensity := intensity, durationMin := duration_min,
    notes := notes }

/-- A plan document as `models.plan_doc` constructs it (and as stored in the
`plans` collection by `generate_plan`). -/
structure Plan : Type where
  userId : String
  date : String
  items : List PlanItem
  status : String
deriving DecidableEq, Repr

/-- `models.plan_doc` as `generate_plan` calls it (all arguments given). -/
def plan_doc (user_id : String) (items : List PlanItem) (date status : String) :
    Plan :=
  { userId := user_id, date := date, items := items, status := status }

/-- The `base` template table of `generate_plan`, for one intensity key. -/
def baseTemplate (intensity : String) : List PlanItem :=
  if intensity = "Low" then
    [plan_item "Workout" "Low" 20 "Light mobility + walk",
     plan_item "Habit" "Low" 5 "Hydrate: +1L",
     plan_item "Recovery" "Low" 10 "Stretch + sleep target 8h"]
  else if intensity = "Moderate" then
    [plan_item "Workout" "Moderate" 35 "Bodyweight circuit + brisk walk",
     plan_item "Habit" "Low" 5 "2L water + protein target",
     plan_item "Recovery" "Low" 10 "Cooldown + mindfulness 5m"]
  else if intensity = "High" then
    [plan_item "Workout" "High" 45 "Intervals + strength",
     plan_item "Habit" "Low" 5 "Macros check + 2.5L water",
     plan_item "Recovery" "Low" 15 "Mobility + sleep hygiene"]
  else []

/-- `base.get(intensity, base["Moderate"])`. -/
def baseGet (intensity : String) : List PlanItem :=
  if intensity = "Low" ∨ intensity = "Moderate" ∨ intensity = "High" then
    baseTemplate intensity
  else baseTemplate "Moderate"

/-- The outcome of `behavior_model.next_best_intensity(user_id)` as
`generate_plan` observes it: either a raised exception, or a returned value
that may be `None` (`Except.ok none`) or a string. -/
def IntensityOutcome : Type := Except Unit (Option String)

/-- Lines 13–17 of `generate_plan`: the `try`/`except` wrapper and the
`or "Moderate"` falsy fallback around the scorer call. -/
def resolveIntensity : IntensityOutcome → String
  | Except.error _ => "Moderate"
  | Except.ok none => "Moderate"
  | Except.ok (some s) => if s = "" then "Moderate" else s

/-- Does a stored plan document match the upsert filter
`{"userId": user_id, "date": date}`? -/
def planMatches (user_id date : String) (p : Plan) : Bool :=
  p.userId == user_id && p.date == date

/-- `db.plans.update_one(filter, {"$set": plan}, upsert=True)`: `$set` with
the full document rewrites every field of the first matching stored plan;
when nothing matches, the document is inserted. -/
def update_one_upsert (user_id date : String) (newPlan : Plan) :
    List Plan → List Plan
  | [] => [newPlan]
  | p :: rest =>
    if planMatches user_id date p then newPlan :: rest
    else p :: update_one_upsert user_id date newPlan rest

/-- `system_function.generate_plan`: `outcome` is what the wrapped
`next_best_intensity` call did, `today` is `iso_today()`, `store` is the
`plans` collection.  Returns the constructed plan and the updated
collection. -/
def generate_plan (user_id : String) (outcome : IntensityOutcome)
    (today : String) (store : List Plan) : Plan × List Plan :=
  let intensity := resolveIntensity outcome
  let items := baseGet intensity
  let plan := plan_doc user_id items today "Proposed"
  (plan, update_one_upsert user_id today plan store)

/-! ### generate_nudges -/

def LOW_STEP_THRESHOLD : ℤ := 300
def MODERATE_STEP_THRESHOLD : ℤ := 2000

def msgQuickWin : String :=
  "Quick win: 10-minute brisk walk to boost your step count."
def msgShortWalk : String :=
  "Great start! Add another short walk to hit your daily goal."
def msgStretch : String :=
  "Nice pace! Add a 5-minute stretch break to stay loose."

/-- The list comprehension
`[int(m["value"]) for m in cursor if "value" in m]` of `generate_nudges`:
documents without a `value` key are skipped by the `if` guard, but `int(...)`
on a present non-coercible value raises, aborting the whole call. -/
def nudgeRecentSteps : List SensorDoc → Except String (List ℤ)
  | [] => Except.ok []
  | m :: rest =>
    match m.value with
    | none => nudgeRecentSteps rest
    | some v =>
      match pyIntOfRaw v with
      | Except.error e => Except.error e
      | Except.ok n =>
        match nudgeRecentSteps rest with
        | Except.error e => Except.error e
        | Except.ok ns => Except.ok (n :: ns)

/-- `int(mean(recent_steps)) if recent_steps else 0`. -/
def nudgeAvg (recent_steps : List ℤ) : ℤ :=
  if recent_steps.isEmpty then 0
  else
    let m := listMean (recent_steps.map (fun n => (n : ℚ)))
    if 0 ≤ m then ⌊m⌋ else -⌊-m⌋

/-- The threshold selection of `generate_nudges`. -/
def nudgeMsgOfAvg (avg : ℤ) : String :=
  if avg < LOW_STEP_THRESHOLD then msgQuickWin
  else if avg < MODERATE_STEP_THRESHOLD then msgShortWalk
  else msgStretch

/-- `system_function.generate_nudges`, up to the produced message: `docs` is
the full `Steps` query result sorted newest first; the cursor is limited to
the 6 most recent samples.  The whole call raises when the comprehension
does. -/
def generate_nudges_msg (docs : List SensorDoc) : Except String String :=
  match nudgeRecentSteps (docs.take 6) with
  | Except.error e => Except.error e
  | Except.ok recent_steps => Except.ok (nudgeMsgOfAvg (nudgeAvg recent_steps))

/-! ## Specification-side definitions (for refinement comparisons) -/

/-- The adherence formula as the (amended) specification words it: the
neutral default 0.5 for an empty window, otherwise the exact completed
fraction `k / n`. -/
def spec_adherence (n k : ℕ) : ℚ := if n = 0 then 0.5 else (k : ℚ) / n

/-- The readiness formula as the specification words it, over the
already-coerced value lists of the four queries: 14-day baselines defaulting
to 75.0 bpm and 70.0, recent HR over 24 hours, recent sleep restricted to
the 3 most recent samples of the 7-day window,
`hr_score = clamp(0.5 + (baselineHR - recentHR)/20, 0.1, 1.0)`,
`sleep_score = clamp(recentSleepAvg/100, 0.1, 1.0)`, and the final score
`round(0.4*hr_score + 0.6*sleep_score, 2)`. -/
def spec_readiness (hrBase sleepBase hrRecent sleepRecent : List ℚ) : ℚ :=
  let hr_baseline := if hrBase.isEmpty then 75 else listMean hrBase
  let sleep_baseline := if sleepBase.isEmpty then 70 else listMean sleepBase
  let sleep3 := sleepRecent.take 3
  let hr_avg := if hrRecent.isEmpty then hr_baseline else listMean hrRecent
  let sleep_avg := if sleep3.isEmpty then sleep_baseline else listMean sleep3
  let hr_score := _clamp (0.5 + (hr_baseline - hr_avg) / 20) 0.1 1
  let sleep_score := _clamp (sleep_avg / 100) 0.1 1
  pyRound2 (0.4 * hr_score + 0.6 * sleep_score)

/-! ## Helper lemmas -/

theorem _clamp_le {x lo hi : ℚ} (h : lo ≤ hi) :
    lo ≤ _clamp x lo hi ∧ _clamp x lo hi ≤ hi := by
  unfold _clamp
  exact ⟨le_max_left _ _, max_le h (min_le_left _ _)⟩

theorem pyRoundInt_bounds {a b : ℤ} {q : ℚ} (ha : (a : ℚ) ≤ q) (hb : q ≤ (b : ℚ)) :
    a ≤ pyRoundInt q ∧ pyRoundInt q ≤ b := by
  have hfa : a ≤ ⌊q⌋ := Int.le_floor.mpr ha
  have hfb : ⌊q⌋ ≤ b := by
    have h1 : ⌊q⌋ ≤ ⌊(b : ℚ)⌋ := Int.floor_le_floor hb
    simpa using h1
  have hsucc : 1 / 2 ≤ q - (⌊q⌋ : ℚ) → ⌊q⌋ + 1 ≤ b := by
    intro hr
    have hlt : (⌊q⌋ : ℚ) < q := by linarith
    have : (⌊q⌋ : ℚ) < (b : ℚ) := lt_of_lt_of_le hlt hb
    exact_mod_cast Int.add_one_le_of_lt (by exact_mod_cast this)
  unfold pyRoundInt
  split_ifs with h1 h2 h3
  · exact ⟨hfa, hfb⟩
  · exact ⟨le_trans hfa (by omega), hsucc (le_of_lt h2)⟩
  · exact ⟨hfa, hfb⟩
  · exact ⟨le_trans hfa (by omega), hsucc (by linarith)⟩

theorem pyRound2_bounds {q : ℚ} (h1 : 1 / 10 ≤ q) (h2 : q ≤ 1) :
    1 / 10 ≤ pyRound2 q ∧ pyRound2 q ≤ 1 := by
  have hlo : ((10 : ℤ) : ℚ) ≤ 100 * q := by push_cast; linarith
  have hhi : 100 * q ≤ ((100 : ℤ) : ℚ) := by push_cast; linarith
  obtain ⟨hl, hr⟩ := pyRoundInt_bounds hlo hhi
  have hl' : (10 : ℚ) ≤ (pyRoundInt (100 * q) : ℚ) := by exact_mod_cast hl
  have hr' : ((pyRoundInt (100 * q)) : ℚ) ≤ 100 := by exact_mod_cast hr
  unfold pyRound2
  constructor <;> linarith

theorem candidate_target_cases (r a : ℚ) :
    candidate_target r a = "Low" ∨ candidate_target r a = "Moderate" ∨
      candidate_target r a = "High" := by
  unfold candidate_target
  split_ifs <;> simp

theorem mem_update_one_upsert (uid d : String) (p : Plan) (store : List Plan) :
    p ∈ update_one_upsert uid d p store := by
  induction store with
  | nil => simp [update_one_upsert]
  | cons q rest ih =>
    unfold update_one_upsert
    split_ifs <;> simp [ih]

theorem countP_update_one_upsert (uid d : String) (p : Plan)
    (hp : planMatches uid d p = true) (store : List Plan) :
    (update_one_upsert uid d p store).countP (planMatches uid d) =
      if store.countP (planMatches uid d) = 0 then 1
      else store.countP (planMatches uid d) := by
  induction store with
  | nil => simp [update_one_upsert, hp]
  | cons q rest ih =>
    unfold update_one_upsert
    by_cases hq : planMatches uid d q = true
    · rw [if_pos hq]
      simp [List.countP_cons, hp, hq]
    · rw [if_neg hq]
      have hq' : planMatches uid d q = false := by
        cases h : planMatches uid d q
        · rfl
        · exact absurd h hq
      simp only [List.countP_cons, hq', if_neg, ih]
      simp

/-! ## Claims -/

/-- Claim C2: the candidate intensity computed by `next_best_intensity`
before hysteresis is High iff readiness > 0.8 and adherence ≥ 0.6,
otherwise Moderate iff readiness ≥ 0.6, otherwise Low; readiness exactly
0.8 yields Moderate (for every adherence, hence in particular adherence
≥ 0.6), readiness exactly 0.6 yields Moderate; with no prior plan,
`next_best_intensity` returns exactly this candidate. -/
theorem candidate_target_thresholds (r a : ℚ) :
    (candidate_target r a = "High" ↔ (r > 0.8 ∧ a ≥ 0.6))
    ∧ (candidate_target r a = "Moderate" ↔ (¬(r > 0.8 ∧ a ≥ 0.6) ∧ r ≥ 0.6))
    ∧ (candidate_target r a = "Low" ↔ (¬(r > 0.8 ∧ a ≥ 0.6) ∧ ¬(r ≥ 0.6)))
    ∧ candidate_target 0.8 a = "Moderate"
    ∧ candidate_target 0.6 a = "Moderate"
    ∧ next_best_intensity r a none = candidate_target r a := by
  refine ⟨?_, ?_, ?_, ?_, ?_, rfl⟩
  · unfold candidate_target
    split_ifs with h1 h2 <;> simp_all
  · unfold candidate_target
    split_ifs with h1 h2 <;> simp_all
  · unfold candidate_target
    split_ifs with h1 h2 <;> simp_all
  · unfold candidate_target
    have h1 : ¬((0.8 : ℚ) > 0.8 ∧ a ≥ 0.6) := by
      rintro ⟨h, -⟩; exact absurd h (by norm_num)
    rw [if_neg h1, if_pos (by norm_num)]
  · unfold candidate_target
    have h1 : ¬((0.6 : ℚ) > 0.8 ∧ a ≥ 0.6) := by
      rintro ⟨h, -⟩; exact absurd h (by norm_num)
    rw [if_neg h1, if_pos (by norm_num)]

/-- Claim C3, counterexample: with 3 plans in the window of which 1 is
Completed, `adherence_score` returns the exact fraction 1/3, not the
2-decimal rounding 0.33 the claim promises. -/
theorem adherence_score_not_rounded :
    adherence_score
        [⟨some "Completed"⟩, ⟨some "Proposed"⟩, ⟨some "Proposed"⟩] = 1 / 3
    ∧ pyRound2 (1 / 3) = 33 / 100
    ∧ (1 / 3 : ℚ) ≠ 33 / 100 := by
  refine ⟨?_, ?_, by norm_num⟩
  · unfold adherence_score
    simp [List.countP, List.countP.go]
  · unfold pyRound2 pyRoundInt
    norm_num

/-- Claim C3, amended: `adherence_score` returns exactly 0.5 when no plans
exist in the window, and otherwise the exact (unrounded) fraction `k / n`
of Completed plans. -/
theorem adherence_score_spec (plans : List PlanStatusDoc) :
    adherence_score plans =
      spec_adherence plans.length
        (plans.countP (fun p => p.status == some "Completed")) := by
  unfold adherence_score spec_adherence
  cases plans <;> simp

/-- Claim C4: `readiness_score` computes exactly the specified two-tier
baseline/recent formula (defaults 75.0 bpm and 70.0, recent sleep limited
to the 3 most recent coerced samples, clamped sub-scores, final score
`round(0.4*hr + 0.6*sleep, 2)`), is total (the embedding is a plain
function: `statistics.mean` is only ever applied to a non-empty list), its
result always lies in [0.1, 1.0], and on fully empty metric data it
evaluates from the baseline constants to 0.62. -/
theorem readiness_score_spec_and_range (hb sb hr sr : List SensorDoc) :
    readiness_score hb sb hr sr =
      spec_readiness (_values hb) (_values sb) (_values hr) (_values sr)
    ∧ 1 / 10 ≤ readiness_score hb sb hr sr
    ∧ readiness_score hb sb hr sr ≤ 1
    ∧ readiness_score [] [] [] [] = 0.62 := by
  have hrange : ∀ u v : ℚ,
      1 / 10 ≤ pyRound2 (0.4 * _clamp u 0.1 1 + 0.6 * _clamp v 0.1 1)
      ∧ pyRound2 (0.4 * _clamp u 0.1 1 + 0.6 * _clamp v 0.1 1) ≤ 1 := by
    intro u v
    obtain ⟨hu1, hu2⟩ := @_clamp_le u 0.1 1 (by norm_num)
    obtain ⟨hv1, hv2⟩ := @_clamp_le v 0.1 1 (by norm_num)
    have h01 : (0.1 : ℚ) = 1 / 10 := by norm_num
    rw [h01] at hu1 hv1
    refine pyRound2_bounds (by linarith) (by linarith)
  refine ⟨rfl, (hrange _ _).1, (hrange _ _).2, ?_⟩
  unfold readiness_score _values pyRound2 pyRoundInt _clamp listMean
  norm_num [DEFAULT_HR_BASELINE, DEFAULT_SLEEP_SCORE_BASELINE]

/-- Claim C1: when the most recent plan yields a recognized last Workout
intensity (the `for` scan stops at the first Workout-typed item),
`next_best_intensity` returns a value at most 1 step from it on the
Low=0 < Moderate=1 < High=2 scale, and whenever the candidate target is
more than 1 step away (a Low–High jump either way) the result is clamped
to Moderate; when no prior plan exists the candidate is returned
unmodified. -/
theorem next_best_intensity_hysteresis (r a : ℚ) (lp : Option LastPlan) :
    (∀ s : String, lastIntensity lp = some s →
        (s = "Low" ∨ s = "Moderate" ∨ s = "High") →
        (orderGet (next_best_intensity r a lp) - orderGet s).natAbs ≤ 1
        ∧ ((orderGet (candidate_target r a) - orderGet s).natAbs > 1 →
            next_best_intensity r a lp = "Moderate"))
    ∧ (lp = none → next_best_intensity r a lp = candidate_target r a) := by
  constructor
  · intro s hs hmem
    unfold next_best_intensity
    rw [hs]
    rcases candidate_target_cases r a with hc | hc | hc <;> rw [hc] <;>
      rcases hmem with h' | h' | h' <;> subst h' <;>
      exact ⟨by decide, fun hgt => by revert hgt; decide⟩
  · intro h
    subst h
    rfl

/-- Claim C1 witness: last Workout intensity Low with readiness 0.9 and
adherence 0.7 (candidate High, a 2-step jump) is clamped to Moderate. -/
theorem next_best_intensity_hysteresis_witness :
    next_best_intensity 0.9 0.7
        (some ⟨some [⟨some "Workout", some "Low"⟩]⟩) = "Moderate" := by
  have hcand : candidate_target 0.9 0.7 = "High" := by
    unfold candidate_target
    rw [if_pos (by norm_num)]
  have h := (next_best_intensity_hysteresis 0.9 0.7
      (some ⟨some [⟨some "Workout", some "Low"⟩]⟩)).1 "Low" (by rfl)
      (Or.inl rfl)
  exact h.2 (by rw [hcand]; decide)

/-- Claim C5: `BehaviorModel._values` silently drops every sample whose
value is missing or fails `float` coercion (it is not treated as zero and
nothing is raised), but the steps comprehension of `generate_nudges` only
guards against a missing `value` key: a present non-coercible value makes
`int(m["value"])` raise, so the call aborts instead of dropping the
sample — the code contradicts the claim (and the `models.py` comment
"caller must guard") at that input. -/
theorem nonnumeric_values_dropped :
    (∀ docs : List SensorDoc,
        _values ({ value := some RawValue.bad } :: docs) = _values docs)
    ∧ (∀ docs : List SensorDoc,
        _values ({ value := none } :: docs) = _values docs)
    ∧ (∀ (q : ℚ) (docs : List SensorDoc),
        _values ({ value := some (RawValue.num q) } :: docs) = q :: _values docs)
    ∧ generate_nudges_msg [⟨some RawValue.bad⟩] = Except.error "ValueError" := by
  refine ⟨fun docs => rfl, fun docs => rfl, fun q docs => rfl, ?_⟩
  simp [generate_nudges_msg, nudgeRecentSteps, pyIntOfRaw]

/-- Claim C6: when the wrapped `next_best_intensity` call raises,
`generate_plan` substitutes the intensity "Moderate" and still constructs,
persists and returns a complete 3-item plan for today with status
"Proposed". -/
theorem generate_plan_exception_fallback (user_id today : String)
    (store : List Plan) :
    resolveIntensity (Except.error ()) = "Moderate"
    ∧ (generate_plan user_id (Except.error ()) today store).1.items =
        baseTemplate "Moderate"
    ∧ (generate_plan user_id (Except.error ()) today store).1.items.length = 3
    ∧ (generate_plan user_id (Except.error ()) today store).1.status = "Proposed"
    ∧ (generate_plan user_id (Except.error ()) today store).1.date = today
    ∧ (generate_plan user_id (Except.error ()) today store).1.userId = user_id
    ∧ (generate_plan user_id (Except.error ()) today store).1 ∈
        (generate_plan user_id (Except.error ()) today store).2 := by
  refine ⟨rfl, rfl, rfl, rfl, rfl, rfl, ?_⟩
  exact mem_update_one_upsert _ _ _ _

/-- Claim C7: calling `generate_plan` twice for the same user and the same
date is idempotent on the `plans` collection — the second call overwrites
the plan stored under the `(userId, date)` key instead of inserting a
duplicate, so exactly one plan for that key exists afterwards (assuming
the store did not already hold duplicates for the key). -/
theorem generate_plan_idempotent (user_id today : String)
    (o1 o2 : IntensityOutcome) (store : List Plan)
    (h : store.countP (planMatches user_id today) ≤ 1) :
    ((generate_plan user_id o2 today
          (generate_plan user_id o1 today store).2).2).countP
        (planMatches user_id today) = 1 := by
  have hp : ∀ o : IntensityOutcome,
      planMatches user_id today
        (plan_doc user_id (baseGet (resolveIntensity o)) today "Proposed") =
        true := by
    intro o
    simp [planMatches, plan_doc]
  show (update_one_upsert user_id today _
      (update_one_upsert user_id today _ store)).countP
      (planMatches user_id today) = 1
  rw [countP_update_one_upsert _ _ _ (hp o2),
    countP_update_one_upsert _ _ _ (hp o1)]
  split_ifs <;> omega

/-- Claim C7 witness: two same-day calls starting from an empty store leave
exactly one stored plan under the key. -/
theorem generate_plan_idempotent_witness :
    ((generate_plan "U1" (Except.ok (some "Low")) "2026-10-12"
          (generate_plan "U1" (Except.ok (some "High")) "2026-10-12" []).2).2).countP
        (planMatches "U1" "2026-10-12") = 1 :=
  generate_plan_idempotent "U1" "2026-10-12" (Except.ok (some "High"))
    (Except.ok (some "Low")) [] (by decide)

theorem baseGet_types (s : String) :
    (baseGet s).map (fun it => it.type) = ["Workout", "Habit", "Recovery"] := by
  unfold baseGet
  split_ifs with h
  · rcases h with h | h | h <;> subst h <;> rfl
  · rfl

/-- Claim C8: for every resolved intensity, the plan `generate_plan`
returns has exactly 3 items in the fixed order Workout, Habit, Recovery,
status "Proposed" and today's date as its date key; the Moderate template
has a 35-minute Workout (durations 35/5/10). -/
theorem generate_plan_shape (user_id today : String)
    (outcome : IntensityOutcome) (store : List Plan) :
    ((generate_plan user_id outcome today store).1.items.map (fun it => it.type)
        = ["Workout", "Habit", "Recovery"])
    ∧ (generate_plan user_id outcome today store).1.items.length = 3
    ∧ (generate_plan user_id outcome today store).1.status = "Proposed"
    ∧ (generate_plan user_id outcome today store).1.date = today
    ∧ ((generate_plan user_id (Except.ok (some "Moderate")) today store).1.items.map
        (fun it => it.durationMin) = [35, 5, 10]) := by
  refine ⟨baseGet_types _, ?_, rfl, rfl, rfl⟩
  have h := congrArg List.length (baseGet_types (resolveIntensity outcome))
  simpa using h

/-- Make an all-numeric sensordata document from an integer sample. -/
def numDoc (n : ℤ) : SensorDoc := { value := some (RawValue.num (n : ℚ)) }

theorem nudgeRecentSteps_numeric (ns : List ℤ) :
    nudgeRecentSteps (ns.map numDoc) = Except.ok ns := by
  induction ns with
  | nil => rfl
  | cons n rest ih =>
    have hneg : -(n : ℚ) = ((-n : ℤ) : ℚ) := by push_cast; ring
    simp [nudgeRecentSteps, numDoc, pyIntOfRaw, ih]
    intro h
    rw [hneg, Int.floor_intCast]
    ring

/-- Claim C9: `generate_nudges` averages the 6 most recent Steps samples as
a truncated integer mean (0 when none exist) and selects the message by
exact thresholds — mean < 300 gives the quick-win walk message,
300 ≤ mean < 2000 the add-another-short-walk message, mean ≥ 2000 the
stretch-break message; an empty sample set gives the quick-win message. -/
theorem generate_nudges_thresholds (steps : List ℤ) :
    (nudgeMsgOfAvg (nudgeAvg steps) = msgQuickWin ↔ nudgeAvg steps < 300)
    ∧ (nudgeMsgOfAvg (nudgeAvg steps) = msgShortWalk ↔
        (300 ≤ nudgeAvg steps ∧ nudgeAvg steps < 2000))
    ∧ (nudgeMsgOfAvg (nudgeAvg steps) = msgStretch ↔ 2000 ≤ nudgeAvg steps)
    ∧ nudgeAvg [] = 0
    ∧ (∀ ns : List ℤ,
        generate_nudges_msg (ns.map numDoc) =
          Except.ok (nudgeMsgOfAvg (nudgeAvg (ns.take 6))))
    ∧ generate_nudges_msg [] = Except.ok msgQuickWin := by
  refine ⟨?_, ?_, ?_, rfl, ?_, rfl⟩
  · unfold nudgeMsgOfAvg LOW_STEP_THRESHOLD MODERATE_STEP_THRESHOLD
    split_ifs with h1 h2 <;>
      simp [msgQuickWin, msgShortWalk, msgStretch] <;> omega
  · unfold nudgeMsgOfAvg LOW_STEP_THRESHOLD MODERATE_STEP_THRESHOLD
    split_ifs with h1 h2 <;>
      simp [msgQuickWin, msgShortWalk, msgStretch] <;> omega
  · unfold nudgeMsgOfAvg LOW_STEP_THRESHOLD MODERATE_STEP_THRESHOLD
    split_ifs with h1 h2 <;>
      simp [msgQuickWin, msgShortWalk, msgStretch] <;> omega
  · intro ns
    unfold generate_nudges_msg
    rw [← List.map_take, nudgeRecentSteps_numeric]

/-- Claim C10: `generate_plan` is total over whatever
`next_best_intensity` returns — a `None` result, an empty string, or any
string that is not a template key silently falls back to the Moderate
template, and every outcome still yields a persisted, valid 3-item plan
(no lookup error is possible: the embedding is a plain total function,
mirroring `base.get(intensity, base["Moderate"])`). -/
theorem generate_plan_unknown_intensity_fallback (user_id today : String)
    (store : List Plan) :
    ((generate_plan user_id (Except.ok none) today store).1.items =
        baseTemplate "Moderate")
    ∧ ((generate_plan user_id (Except.ok (some "")) today store).1.items =
        baseTemplate "Moderate")
    ∧ (∀ s : String, s ≠ "Low" → s ≠ "Moderate" → s ≠ "High" →
        (generate_plan user_id (Except.ok (some s)) today store).1.items =
          baseTemplate "Moderate")
    ∧ (∀ outcome : IntensityOutcome,
        (generate_plan user_id outcome today store).1.items.length = 3
        ∧ (generate_plan user_id outcome today store).1 ∈
            (generate_plan user_id outcome today store).2) := by
  refine ⟨rfl, rfl, ?_, ?_⟩
  · intro s h1 h2 h3
    show baseGet (if s = "" then "Moderate" else s) = baseTemplate "Moderate"
    split_ifs with he
    · rfl
    · unfold baseGet
      rw [if_neg]
      simp [h1, h2, h3]
  · intro outcome
    constructor
    · have h := congrArg List.length (baseGet_types (resolveIntensity outcome))
      simpa using h
    · exact mem_update_one_upsert _ _ _ _

/-- Claim C10 witness: an unrecognized intensity string falls back to the
Moderate template. -/
theorem generate_plan_unknown_intensity_fallback_witness :
    (generate_plan "U1" (Except.ok (some "Garbage")) "2026-10-12" []).1.items =
      baseTemplate "Moderate" :=
  (generate_plan_unknown_intensity_fallback "U1" "2026-10-12" []).2.2.1
    "Garbage" (by decide) (by decide) (by decide)

end FitGenie
